import Mathlib

/-!
Verification of the Tardes signal-engine repository.

Shallow embedding conventions:
* Python floats are idealised as exact rationals (`ℚ`).  Where float
  special values are reachable (division by zero in the momentum
  indicator, NaN entries of a fetched price column) they are modelled
  explicitly: a price column is a `List (Option ℚ)` with `none` for NaN,
  and the extended type `PF` carries NaN and the two infinities.
* Python `round` (banker's rounding, half to even) is `pyRound`;
  `round(x, n)` is `roundTo n x`.  The literals `1e-8`, `1e-9` are read
  as the exact rationals `1/10^8`, `1/10^9`.
* pandas conventions followed by the source are transcribed:
  `rolling(w, min_periods=w).mean()` is defined from index `w-1` on and
  is NaN when the window contains a NaN; `ewm(span, adjust=False)` is the
  recursion `y0 = x0, yt = (1-a)*y(t-1) + a*xt` with `a = 2/(span+1)`;
  `diff` prepends NaN; comparisons against NaN are false.
-/

set_option maxRecDepth 40000

namespace Tardes

/-- Rational equality decided through the numerator/denominator pair; the
library instance recurses too deeply on large values for kernel
evaluation, this one is semantically identical and evaluation-friendly.
All definitions below pick it up. -/
instance ratDecEqNumDen : DecidableEq ℚ := fun a b =>
  decidable_of_iff (a.num = b.num ∧ a.den = b.den) (by
    constructor
    · rintro ⟨h1, h2⟩
      exact Rat.ext h1 h2
    · rintro rfl
      exact ⟨rfl, rfl⟩)

/-- Python `round` with no digits: round half to even, returning an integer. -/
def pyRound (q : ℚ) : ℤ :=
  let f := ⌊q⌋
  let r := q - f
  if r < 1/2 then f
  else if 1/2 < r then f + 1
  else if f % 2 = 0 then f else f + 1

/-- Python `round(x, n)`: round half to even at `n` decimal places. -/
def roundTo (n : ℕ) (q : ℚ) : ℚ := (pyRound (q * 10 ^ n) : ℚ) / 10 ^ n

/-- A Python float that may be NaN or infinite.  Only the operations the
source can actually hit are provided. -/
inductive PF
  | nan
  | pinf
  | ninf
  | fin (q : ℚ)
deriving DecidableEq

/-- IEEE division of two finite floats: `a / 0` is `±∞` for `a ≠ 0` and NaN
for `0 / 0`. -/
def pfDivQ (a b : ℚ) : PF :=
  if b = 0 then (if a = 0 then .nan else if 0 < a then .pinf else .ninf)
  else .fin (a / b)

/-- Subtract `1` from an extended float (NaN and infinities absorb). -/
def pfSubOne : PF → PF
  | .fin q => .fin (q - 1)
  | x => x

/-- `x > q` with NaN comparing false. -/
def pfGtQ : PF → ℚ → Bool
  | .pinf, _ => true
  | .fin a, q => decide (q < a)
  | _, _ => false

/-- `x < q` with NaN comparing false. -/
def pfLtQ : PF → ℚ → Bool
  | .ninf, _ => true
  | .fin a, q => decide (a < q)
  | _, _ => false

/-- `pd.Series.diff()` on a NaN-free column: NaN first, then successive
differences. -/
def diffQ : List ℚ → List (Option ℚ)
  | [] => []
  | x :: rest => none :: List.zipWith (fun a b => some (b - a)) (x :: rest) rest

/-- `pd.Series.diff()` on a column that may contain NaN. -/
def diffO : List (Option ℚ) → List (Option ℚ)
  | [] => []
  | x :: rest =>
    none :: List.zipWith (fun a b =>
      match a, b with
      | some a, some b => some (b - a)
      | _, _ => none) (x :: rest) rest

/-- `rolling(window=w, min_periods=w).mean()` over a NaN-free column. -/
def rollingMean (w : ℕ) (xs : List ℚ) : List (Option ℚ) :=
  (List.range xs.length).map fun i =>
    if w ≤ i + 1 then some ((((xs.take (i + 1)).drop (i + 1 - w)).sum) / w)
    else none

/-- `rolling(window=w, min_periods=w).mean()` over a column with NaN: the
window must be full and NaN-free (pandas counts non-NaN observations
against `min_periods`). -/
def rollingMeanO (w : ℕ) (xs : List (Option ℚ)) : List (Option ℚ) :=
  (List.range xs.length).map fun i =>
    if w ≤ i + 1 then
      let window := (xs.take (i + 1)).drop (i + 1 - w)
      if window.all Option.isSome then
        some ((window.filterMap id).sum / w)
      else none
    else none

/-- Sample variance (pandas `std` uses `ddof=1`); only called on windows of
length ≥ 2. -/
def sampleVar (l : List ℚ) : ℚ :=
  if l.length ≤ 1 then 0
  else
    let μ := l.sum / l.length
    ((l.map fun x => (x - μ) ^ 2).sum) / ((l.length : ℚ) - 1)

/-- `rolling(window=w, min_periods=w).std()` reported as the *variance* of
each window: the source compares the close against `sma ± 2·std`, which is
expressed here exactly through squares (see `twoSqrtLe`), since square
roots leave `ℚ`. -/
def rollingVar (w : ℕ) (xs : List ℚ) : List (Option ℚ) :=
  (List.range xs.length).map fun i =>
    if w ≤ i + 1 then some (sampleVar ((xs.take (i + 1)).drop (i + 1 - w)))
    else none

/-- Exact test for `2·√v ≤ a` given `v ≥ 0`: equivalent to
`0 ≤ a ∧ 4·v ≤ a²`. -/
def twoSqrtLe (v a : ℚ) : Bool := decide (0 ≤ a) && decide (4 * v ≤ a ^ 2)

/-- Recursion of `ewm(span, adjust=False).mean()` after the seed. -/
def emaGo (a : ℚ) (e : ℚ) : List ℚ → List ℚ
  | [] => []
  | x :: rest =>
    let e2 := (1 - a) * e + a * x
    e2 :: emaGo a e2 rest

/-- `ewm(span=span, adjust=False).mean()` over a NaN-free column, seeded by
the first observation. -/
def emaList (span : ℕ) (xs : List ℚ) : List ℚ :=
  match xs with
  | [] => []
  | x :: rest => x :: emaGo (2 / ((span : ℚ) + 1)) x rest

/-- `fillna(method="bfill")`: each NaN takes the next valid value. -/
def bfill : List (Option ℚ) → List (Option ℚ)
  | [] => []
  | x :: rest =>
    let r := bfill rest
    (match x with
     | some v => some v
     | none => r.headD none) :: r

/-- `fillna(d)`. -/
def fillna (d : ℚ) (xs : List (Option ℚ)) : List ℚ := xs.map (·.getD d)

/-- `compute_momentum`: `close / close.shift(w) - 1.0`; division by a zero
close yields an infinity, `0/0` yields NaN, shifted-out positions are NaN. -/
def computeMomentum (w : ℕ) (close : List ℚ) : List PF :=
  (List.range close.length).map fun i =>
    if i < w then PF.nan
    else pfSubOne (pfDivQ (close.getD i 0) (close.getD (i - w) 0))

/-- A strategy vote / signal action. -/
inductive Action
  | BUY
  | SELL
  | HOLD
deriving DecidableEq, BEq

/-- `compute_rsi(close, period=14)`: Wilder-style RSI with the source's
`replace(0, nan)`, backfill and neutral-50 fallback. -/
def computeRsi (close : List ℚ) : List ℚ :=
  let delta := diffQ close
  let gains := delta.map fun d =>
    match d with
    | some x => if 0 < x then x else 0
    | none => 0
  let losses := delta.map fun d =>
    match d with
    | some x => if x < 0 then -x else 0
    | none => 0
  let gm := rollingMean 14 gains
  let lm := rollingMean 14 losses
  let rs := List.zipWith (fun g l =>
    match g, l with
    | some g, some l => if l = 0 then none else some (g / l)
    | _, _ => (none : Option ℚ)) gm lm
  let rsi0 := rs.map (Option.map fun r => 100 - 100 / (1 + r))
  fillna 50 (bfill rsi0)

/-- `_strategy_rsi`. -/
def strategyRsi (close : List ℚ) : Action :=
  let rsi := computeRsi close
  if rsi.length < 2 then .HOLD
  else
    let prev := rsi.getD (rsi.length - 2) 0
    let curr := rsi.getD (rsi.length - 1) 0
    if prev < 30 ∧ 30 ≤ curr then .BUY
    else if 70 < prev ∧ curr ≤ 70 then .SELL
    else if curr < 25 then .BUY
    else if 75 < curr then .SELL
    else .HOLD

/-- `compute_macd`: MACD line and its signal line. -/
def computeMacd (close : List ℚ) : List ℚ × List ℚ :=
  let emaFast := emaList 12 close
  let emaSlow := emaList 26 close
  let macd := List.zipWith (· - ·) emaFast emaSlow
  (macd, emaList 9 macd)

/-- `_strategy_macd`. -/
def strategyMacd (close : List ℚ) : Action :=
  let p := computeMacd close
  let macd := p.1
  let signal := p.2
  if macd.length < 2 then .HOLD
  else
    let n := macd.length
    let prevCross := macd.getD (n - 2) 0 - signal.getD (n - 2) 0
    let currCross := macd.getD (n - 1) 0 - signal.getD (n - 1) 0
    if prevCross ≤ 0 ∧ 0 < currCross then .BUY
    else if 0 ≤ prevCross ∧ currCross < 0 then .SELL
    else .HOLD

/-- `_strategy_sma_crossover`: golden/death cross of SMA(50) over SMA(200);
a NaN in either cross value (length exactly 200) makes both comparisons
false, hence HOLD. -/
def strategySmaCross (close : List ℚ) : Action :=
  let smaShort := rollingMean 50 close
  let smaLong := rollingMean 200 close
  if close.length < 200 then .HOLD
  else
    let n := close.length
    let prevCross :=
      match smaShort.getD (n - 2) none, smaLong.getD (n - 2) none with
      | some a, some b => some (a - b)
      | _, _ => (none : Option ℚ)
    let currCross :=
      match smaShort.getD (n - 1) none, smaLong.getD (n - 1) none with
      | some a, some b => some (a - b)
      | _, _ => (none : Option ℚ)
    match prevCross, currCross with
    | some p, some c =>
      if p ≤ 0 ∧ 0 < c then .BUY
      else if 0 ≤ p ∧ c < 0 then .SELL
      else .HOLD
    | _, _ => .HOLD

/-- `_strategy_bollinger`: `price ≤ sma − 2·std` (BUY) and
`price ≥ sma + 2·std` (SELL), written exactly through `twoSqrtLe` on the
window variance. -/
def strategyBollinger (close : List ℚ) : Action :=
  let sma := rollingMean 20 close
  let var := rollingVar 20 close
  if close.length < 20 then .HOLD
  else
    let n := close.length
    let price := close.getD (n - 1) 0
    match sma.getD (n - 1) none, var.getD (n - 1) none with
    | some m, some v =>
      if twoSqrtLe v (m - price) then .BUY
      else if twoSqrtLe v (price - m) then .SELL
      else .HOLD
    | _, _ => .HOLD

/-- `_strategy_momentum`: 10-bar return against the ±1% thresholds, with
NaN/∞ semantics of the float division. -/
def strategyMomentum (close : List ℚ) : Action :=
  let mom := computeMomentum 10 close
  if mom.length < 11 then .HOLD
  else
    let curr := mom.getD (mom.length - 1) PF.nan
    if pfGtQ curr (1/100) then .BUY
    else if pfLtQ curr (-(1/100)) then .SELL
    else .HOLD

/-- The `votes` dict of `analyze_symbol` (fixed five keys). -/
structure Votes where
  rsi : Action
  macd : Action
  smaCross : Action
  bollinger : Action
  momentum : Action
deriving DecidableEq

/-- The five votes as a list, for counting. -/
def Votes.toList (v : Votes) : List Action :=
  [v.rsi, v.macd, v.smaCross, v.bollinger, v.momentum]

/-- `buy_votes`. -/
def buyCount (v : Votes) : ℕ := v.toList.count .BUY

/-- `sell_votes`. -/
def sellCount (v : Votes) : ℕ := v.toList.count .SELL

/-- The result dict of `analyze_symbol`.  A `none` field is a key that is
absent from the dict (or present with value `None`); the early returns set
only `symbol`, `action` and `reason`.  The wall-clock `timestamp` is not
modelled. -/
structure Signal where
  symbol : String
  action : Action
  reason : Option String
  strategy_votes : Option Votes
  confidence : Option ℤ
  timeframe : Option String
  entry_price : Option ℚ
  stop_loss_pct : Option ℚ
  take_profit_pct : Option ℚ
  stop_loss_price : Option ℚ
  take_profit_price : Option ℚ
  quantity : Option ℤ
  position_percent : Option ℚ
  equity : Option ℚ
  risk_per_trade_pct : Option ℚ
  order_type : Option String
deriving DecidableEq

/-- The fetched price history, reduced to its `Close` column; `none` entries
are NaN rows.  `data.empty` is `rows = []`. -/
structure DataFrame where
  rows : List (Option ℚ)
deriving DecidableEq

/-- `data["Close"].dropna()`. -/
def closeOf (df : DataFrame) : List ℚ := df.rows.filterMap id

/-- The five strategy votes of `analyze_symbol`. -/
def votesOf (close : List ℚ) : Votes :=
  ⟨strategyRsi close, strategyMacd close, strategySmaCross close,
   strategyBollinger close, strategyMomentum close⟩

/-- Vote aggregation: BUY on a buy majority, SELL on a sell majority,
else HOLD. -/
def actionOf (b s : ℕ) : Action :=
  if b > s then .BUY else if s > b then .SELL else .HOLD

/-- The confidence line of `analyze_symbol` (`total_votes = 5`). -/
def confidenceOf (b s : ℕ) : ℤ :=
  if actionOf b s ≠ .HOLD then pyRound (((max b s : ℕ) : ℚ) / 5 * 100)
  else pyRound ((1 - |(b : ℚ) - (s : ℚ)| / 5) * 100)

/-- Raw stop-loss price before rounding/truthiness (2% adverse). -/
def stopLossRaw (a : Action) (entry : ℚ) : Option ℚ :=
  if a = .SELL then some (entry * (1 + 2/100))
  else if a = .BUY then some (entry * (1 - 2/100))
  else none

/-- Raw take-profit price before rounding/truthiness (4% favourable). -/
def takeProfitRaw (a : Action) (entry : ℚ) : Option ℚ :=
  if a = .SELL then some (entry * (1 - 4/100))
  else if a = .BUY then some (entry * (1 + 4/100))
  else none

/-- `risk_per_unit`. -/
def riskPerUnitOf (a : Action) (entry : ℚ) : ℚ :=
  if a ≠ .HOLD then entry * (2/100) else entry * (1/100)

/-- `quantity = int(max(1, floor(risk_capital / max(1e-8, risk_per_unit))))`
for a non-HOLD action, else `0`. -/
def quantityOf (a : Action) (entry equity riskPct : ℚ) : ℤ :=
  if a ≠ .HOLD then
    max 1 ⌊(equity * (riskPct / 100)) / max (1/10^8) (riskPerUnitOf a entry)⌋
  else 0

/-- `position_percent` before rounding. -/
def positionPercentOf (q : ℤ) (entry equity : ℚ) : ℚ :=
  if 0 < equity then (q : ℚ) * entry / equity * 100 else 0

/-- `round(p, 6) if p else None`: Python truthiness drops a zero price. -/
def truthyRound6 : Option ℚ → Option ℚ
  | none => none
  | some p => if p = 0 then none else some (roundTo 6 p)

/-- The two early-return dicts of `analyze_symbol` (only `symbol`,
`action`, `reason` present). -/
def earlyHold (sym reason : String) : Signal :=
  { symbol := sym, action := .HOLD, reason := some reason,
    strategy_votes := none, confidence := none, timeframe := none,
    entry_price := none, stop_loss_pct := none, take_profit_pct := none,
    stop_loss_price := none, take_profit_price := none, quantity := none,
    position_percent := none, equity := none, risk_per_trade_pct := none,
    order_type := none }

/-- The ≥50-closes path of `analyze_symbol`. -/
def analyzeFull (sym : String) (close : List ℚ) (equity riskPct : ℚ)
    (tf : String) : Signal :=
  { symbol := sym,
    action := actionOf (buyCount (votesOf close)) (sellCount (votesOf close)),
    reason := none,
    strategy_votes := some (votesOf close),
    confidence := some (confidenceOf (buyCount (votesOf close)) (sellCount (votesOf close))),
    timeframe := some tf,
    entry_price := some (roundTo 6 (close.getLastD 0)),
    stop_loss_pct :=
      if actionOf (buyCount (votesOf close)) (sellCount (votesOf close)) ≠ .HOLD
      then some (roundTo 2 ((2/100) * 100)) else none,
    take_profit_pct :=
      if actionOf (buyCount (votesOf close)) (sellCount (votesOf close)) ≠ .HOLD
      then some (roundTo 2 ((4/100) * 100)) else none,
    stop_loss_price := truthyRound6 (stopLossRaw
      (actionOf (buyCount (votesOf close)) (sellCount (votesOf close)))
      (close.getLastD 0)),
    take_profit_price := truthyRound6 (takeProfitRaw
      (actionOf (buyCount (votesOf close)) (sellCount (votesOf close)))
      (close.getLastD 0)),
    quantity := some (quantityOf
      (actionOf (buyCount (votesOf close)) (sellCount (votesOf close)))
      (close.getLastD 0) equity riskPct),
    position_percent := some (roundTo 2 (positionPercentOf
      (quantityOf (actionOf (buyCount (votesOf close)) (sellCount (votesOf close)))
        (close.getLastD 0) equity riskPct)
      (close.getLastD 0) equity)),
    equity := some equity,
    risk_per_trade_pct := some riskPct,
    order_type := some "MARKET" }

/-- `analyze_symbol(symbol, data, equity, risk_per_trade_pct, timeframe)`:
`data is None or data.empty` gives "no_data", fewer than 50 non-NaN closes
gives "insufficient_data", else the full voting/risk path. -/
def analyze_symbol (sym : String) (data : Option DataFrame)
    (equity riskPct : ℚ) (tf : String) : Signal :=
  match data with
  | none => earlyHold sym "no_data"
  | some df =>
    if df.rows.isEmpty then earlyHold sym "no_data"
    else if (closeOf df).length < 50 then earlyHold sym "insufficient_data"
    else analyzeFull sym (closeOf df) equity riskPct tf

/-! ## Engine cycle (`app/engine/engine.py`) -/

/-- Outcome of one call to the external price provider for one symbol:
the download either raises or returns a (possibly empty) frame. -/
inductive FetchOutcome
  | raises
  | returns (df : DataFrame)

/-- `fetch_history`: wraps the download in try/except; a raise or a
non-frame/empty result becomes an empty frame (the column renaming is a
no-op in this close-only model). -/
def fetch_history (f : String → FetchOutcome) (sym : String) : DataFrame :=
  match f sym with
  | .raises => ⟨[]⟩
  | .returns df => if df.rows.isEmpty then ⟨[]⟩ else df

/-- `merge_signals`: placeholder identity aggregation. -/
def merge_signals (l : List Signal) : List Signal := l

/-- `run_analysis`: one cycle over the symbol list; each symbol is fetched
and analyzed independently, and the batch is merged.  The provider call
(with its fixed period/interval) is abstracted as `f`. -/
def run_analysis (symbols : List String) (f : String → FetchOutcome)
    (equity riskPct : ℚ) (tf : String) : List Signal :=
  merge_signals (symbols.map fun s =>
    analyze_symbol s (some (fetch_history f s)) equity riskPct tf)

/-! ## Second strategy variant (`strategies.py`, German-labelled signals) -/

/-- A signal dict of the `strategies.py` variant. -/
structure SigG where
  crypto : String
  action : String
  preis : ℚ
  menge : ℚ
  anteil : ℚ
  strategie : String
  konfidenz : ℚ
deriving DecidableEq

/-- `generate_signals_for_symbols` symbol munging: append `-USD` unless
already present. -/
def yfSymbol (s : String) : String :=
  if s.endsWith "-USD" then s else s ++ "-USD"

/-- `symbol.replace('USD', '')`. -/
def cryptoName (s : String) : String := s.replace "USD" ""

/-- `_download_ohlc`: the raw download with no try/except — a raising
provider propagates the exception (`Except.error`); the renaming is a
no-op here and an empty frame is returned unchanged. -/
def downloadOhlc (f : String → FetchOutcome) (sym : String) :
    Except Unit DataFrame :=
  match f sym with
  | .raises => .error ()
  | .returns df => .ok df

/-- `ffill` (pandas pad): each NaN takes the previous valid value. -/
def ffillGo (prev : Option ℚ) : List (Option ℚ) → List (Option ℚ)
  | [] => []
  | x :: rest =>
    let cur := match x with
      | some v => some v
      | none => prev
    cur :: ffillGo cur rest

/-- Forward fill from nothing. -/
def ffill (xs : List (Option ℚ)) : List (Option ℚ) := ffillGo none xs

/-- `pct_change()` with its default pad fill: forward-fill, then
`x[i]/x[i-1] - 1` with float-division semantics; position 0 and positions
with no previous valid value are NaN. -/
def pctChange (xs : List (Option ℚ)) : List PF :=
  let p := ffill xs
  (List.range xs.length).map fun i =>
    if i = 0 then PF.nan
    else
      match p.getD i none, p.getD (i - 1) none with
      | some a, some b => pfSubOne (pfDivQ a b)
      | _, _ => PF.nan

/-- `min(99, round(x * 10000, 2))` on the last return; an infinite return
caps at 99, the NaN/−∞ branches are unreachable under the sign guards of
`momentum_strategy` (junk value 0). -/
def konfMom : PF → ℚ
  | .fin q => min 99 (roundTo 2 (q * 10000))
  | .pinf => 99
  | .ninf => 0
  | .nan => 0

/-- Absolute value on the extended floats. -/
def pfAbs : PF → PF
  | .fin q => .fin |q|
  | .nan => .nan
  | _ => .pinf

/-- `momentum_strategy`: KAUF/VERKAUF on the sign of the last close-to-close
return. -/
def momentum_strategy (f : String → FetchOutcome) (sym : String) :
    Except Unit (List SigG) := do
  let df ← downloadOhlc f sym
  if df.rows.isEmpty ∨ df.rows.length < 2 then return []
  let ret := (pctChange df.rows).getLastD .nan
  let preis := (df.rows.getLastD none).getD 0
  if pfGtQ ret 0 then
    return [⟨cryptoName sym, "KAUF", preis, 1, 100, "Momentum", konfMom ret⟩]
  else if pfLtQ ret 0 then
    return [⟨cryptoName sym, "VERKAUF", preis, 1, 100, "Momentum",
             konfMom (pfAbs ret)⟩]
  else return []

/-- `sma_crossover_strategy(fast=10, slow=30)`: because the rolling means
have no `min_periods` relaxation, the leading-NaN check
(`isna().any().any()`) always fires for any frame passing the length
guard, so the cross branch below it is dead in practice; it is still
transcribed. -/
def sma_crossover_strategy (f : String → FetchOutcome) (sym : String)
    (fast slow : ℕ) : Except Unit (List SigG) := do
  let df ← downloadOhlc f sym
  if df.rows.isEmpty ∨ df.rows.length < slow + 2 then return []
  let smaFast := rollingMeanO fast df.rows
  let smaSlow := rollingMeanO slow df.rows
  if (smaFast ++ smaSlow).any Option.isNone then return []
  let n := df.rows.length
  let lastFast := (smaFast.getD (n - 1) none).getD 0
  let lastSlow := (smaSlow.getD (n - 1) none).getD 0
  let prevFast := (smaFast.getD (n - 2) none).getD 0
  let prevSlow := (smaSlow.getD (n - 2) none).getD 0
  let preis := (df.rows.getLastD none).getD 0
  if prevFast ≤ prevSlow ∧ lastSlow < lastFast then
    return [⟨cryptoName sym, "KAUF", preis, 1, 100,
             "SMA" ++ toString fast ++ "/" ++ toString slow, 80⟩]
  else if prevSlow ≤ prevFast ∧ lastFast < lastSlow then
    return [⟨cryptoName sym, "VERKAUF", preis, 1, 100,
             "SMA" ++ toString fast ++ "/" ++ toString slow, 80⟩]
  else return []

/-- `rsi_strategy(period=14, oversold=30, overbought=70)`: threshold
crossings of a rolling-mean RSI whose zero average loss is replaced by
`1e-9`; NaN comparisons are false. -/
def rsi_strategy (f : String → FetchOutcome) (sym : String)
    (period : ℕ) (oversold overbought : ℚ) : Except Unit (List SigG) := do
  let df ← downloadOhlc f sym
  if df.rows.isEmpty ∨ df.rows.length < period + 2 then return []
  let delta := diffO df.rows
  let gain := delta.map (Option.map fun x => max x 0)
  let loss := delta.map (Option.map fun x => max (-x) 0)
  let avgGain := rollingMeanO period gain
  let avgLoss := rollingMeanO period loss
  let rs := List.zipWith (fun g l =>
    match g, l with
    | some g, some l => some (g / (if l = 0 then 1/10^9 else l))
    | _, _ => (none : Option ℚ)) avgGain avgLoss
  let rsi := rs.map (Option.map fun r => 100 - 100 / (1 + r))
  let n := df.rows.length
  let preis := (df.rows.getLastD none).getD 0
  match rsi.getD (n - 2) none, rsi.getD (n - 1) none with
  | some prev, some last =>
    if prev < oversold ∧ oversold ≤ last then
      return [⟨cryptoName sym, "KAUF", preis, 1, 100,
               "RSI" ++ toString period, 75⟩]
    else if overbought < prev ∧ last ≤ overbought then
      return [⟨cryptoName sym, "VERKAUF", preis, 1, 100,
               "RSI" ++ toString period, 75⟩]
    else return []
  | _, _ => return []

/-- One step of `ewm(span, adjust=False, ignore_na=False).mean()` over a
column with NaN: the state is the current mean and the relative weight of
the old observations; a NaN decays the old weight and re-emits the carried
mean. -/
def ewmGo (a : ℚ) : Option (ℚ × ℚ) → List (Option ℚ) → List (Option ℚ)
  | _, [] => []
  | st, x :: rest =>
    match st, x with
    | none, none => none :: ewmGo a none rest
    | none, some v => some v :: ewmGo a (some (v, 1)) rest
    | some (m, w), none => some m :: ewmGo a (some (m, w * (1 - a))) rest
    | some (m, w), some v =>
      let w2 := w * (1 - a)
      let m2 := (w2 * m + a * v) / (w2 + a)
      some m2 :: ewmGo a (some (m2, w2 + a)) rest

/-- `ewm(span=span, adjust=False).mean()` over a column with NaN. -/
def ewmO (span : ℕ) (xs : List (Option ℚ)) : List (Option ℚ) :=
  ewmGo (2 / ((span : ℚ) + 1)) none xs

/-- `macd_strategy(fast=12, slow=26, signal=9)`: EMA cross of the MACD line
over its signal line; NaN comparisons are false. -/
def macd_strategy (f : String → FetchOutcome) (sym : String)
    (fast slow signalLen : ℕ) : Except Unit (List SigG) := do
  let df ← downloadOhlc f sym
  if df.rows.isEmpty ∨ df.rows.length < slow + signalLen + 2 then return []
  let emaFast := ewmO fast df.rows
  let emaSlow := ewmO slow df.rows
  let macd := List.zipWith (fun a b =>
    match a, b with
    | some a, some b => some (a - b)
    | _, _ => (none : Option ℚ)) emaFast emaSlow
  let signalLine := ewmO signalLen macd
  let n := df.rows.length
  let preis := (df.rows.getLastD none).getD 0
  match macd.getD (n - 2) none, signalLine.getD (n - 2) none,
        macd.getD (n - 1) none, signalLine.getD (n - 1) none with
  | some pm, some ps, some lm, some ls =>
    if pm ≤ ps ∧ ls < lm then
      return [⟨cryptoName sym, "KAUF", preis, 1, 100, "MACD", 78⟩]
    else if ps ≤ pm ∧ lm < ls then
      return [⟨cryptoName sym, "VERKAUF", preis, 1, 100, "MACD", 78⟩]
    else return []
  | _, _, _, _ => return []

/-- `generate_signals_for_symbols`: run the four strategies per symbol and
concatenate; any raised download exception propagates and aborts the whole
batch. -/
def generate_signals_for_symbols (symbols : List String)
    (f : String → FetchOutcome) : Except Unit (List SigG) :=
  match symbols with
  | [] => .ok []
  | sym :: rest => do
    let ys := yfSymbol sym
    let a ← momentum_strategy f ys
    let b ← sma_crossover_strategy f ys 10 30
    let c ← rsi_strategy f ys 14 30 70
    let d ← macd_strategy f ys 12 26 9
    let tail ← generate_signals_for_symbols rest f
    return a ++ b ++ c ++ d ++ tail

/-! ## Broadcaster and the SSE stream (`server.py`) -/

/-- One subscriber queue: `asyncio.Queue()` as created by `subscribe` is
unbounded, so `put` never blocks; `broken` models a queue whose `put`
raises (the `except` arm of `publish`). -/
structure SubQueue (α : Type) where
  id : ℕ
  items : List α
  broken : Bool
deriving DecidableEq

/-- The broadcaster registry (`self.connections`). -/
structure Broadcaster (α : Type) where
  connections : List (SubQueue α)
deriving DecidableEq

/-- `subscribe`: create a fresh unbounded queue, register it, return it. -/
def subscribe {α : Type} (bc : Broadcaster α) (fresh : ℕ) :
    SubQueue α × Broadcaster α :=
  let q : SubQueue α := ⟨fresh, [], false⟩
  (q, ⟨bc.connections ++ [q]⟩)

/-- One `try: await q.put(data) except: pass` of `publish`: a raising put
is swallowed and the queue is left as it was. -/
def putAttempt {α : Type} (q : SubQueue α) (m : α) : SubQueue α :=
  if q.broken then q else ⟨q.id, q.items ++ [m], q.broken⟩

/-- `publish`: attempt a put on every currently registered queue; the
registry membership is never changed here. -/
def publish {α : Type} (bc : Broadcaster α) (m : α) : Broadcaster α :=
  ⟨bc.connections.map (putAttempt · m)⟩

/-- `list.remove(q)`: drop the first queue with the given identity, leave
the list unchanged when absent (`except ValueError: pass`). -/
def removeFirst {α : Type} : List (SubQueue α) → ℕ → List (SubQueue α)
  | [], _ => []
  | q :: rest, i => if q.id = i then rest else q :: removeFirst rest i

/-- `unsubscribe`. -/
def unsubscribe {α : Type} (bc : Broadcaster α) (qid : ℕ) : Broadcaster α :=
  ⟨removeFirst bc.connections qid⟩

/-- One event of the `/events` stream. -/
inductive SseEvent (α : Type)
  | ping
  | message (m : α)
deriving DecidableEq

/-- The `/events` generator loop, observed along a trace of queue waits:
each 25s timeout yields a `ping` event, each received message yields a
`message` event; nothing else is ever yielded. -/
def sseEvents {α : Type} (arrivals : List (Option α)) : List (SseEvent α) :=
  arrivals.map fun a =>
    match a with
    | none => .ping
    | some m => .message m

/-! ## Concrete price series used as test vectors -/

/-- Fifty closes, all `0`. -/
def zeros50 : DataFrame := ⟨List.replicate 50 (some 0)⟩

/-- Fifty closes, all `100`. -/
def const100 : DataFrame := ⟨List.replicate 50 (some 100)⟩

/-- Fifty closes, all `1e-9`: a positive entry price small enough that
`entry * 0.02` falls below the `1e-8` sizing clamp. -/
def tiny50 : DataFrame := ⟨List.replicate 50 (some (1/1000000000))⟩

/-- A single-row frame (one close). -/
def oneRow : DataFrame := ⟨[some 100]⟩

/-- A provider for which symbol `A` (fetched as `A-USD`) raises and every
other symbol returns the fifty-zero frame. -/
def fetchA : String → FetchOutcome := fun s =>
  if s = "A-USD" then FetchOutcome.raises else FetchOutcome.returns zeros50

/-! ## Path and projection lemmas for the evaluation engine -/

lemma analyze_none (sym : String) (e r : ℚ) (tf : String) :
    analyze_symbol sym none e r tf = earlyHold sym "no_data" := rfl

lemma analyze_empty (sym : String) {df : DataFrame} (e r : ℚ) (tf : String)
    (h : df.rows = []) :
    analyze_symbol sym (some df) e r tf = earlyHold sym "no_data" := by
  simp [analyze_symbol, h]

lemma analyze_short (sym : String) {df : DataFrame} (e r : ℚ) (tf : String)
    (h1 : df.rows ≠ []) (h2 : (closeOf df).length < 50) :
    analyze_symbol sym (some df) e r tf = earlyHold sym "insufficient_data" := by
  have hne : df.rows.isEmpty = false := by
    cases h : df.rows with
    | nil => exact absurd h h1
    | cons a l => rfl
  simp [analyze_symbol, hne, h2]

lemma analyze_long (sym : String) {df : DataFrame} (e r : ℚ) (tf : String)
    (h : 50 ≤ (closeOf df).length) :
    analyze_symbol sym (some df) e r tf = analyzeFull sym (closeOf df) e r tf := by
  have h1 : df.rows ≠ [] := by
    intro hnil
    rw [show closeOf df = [] by simp [closeOf, hnil]] at h
    simp at h
  have hne : df.rows.isEmpty = false := by
    cases hr : df.rows with
    | nil => exact absurd hr h1
    | cons a l => rfl
  simp [analyze_symbol, hne, Nat.not_lt.mpr h]

lemma full_action (sym : String) (close : List ℚ) (e r : ℚ) (tf : String) :
    (analyzeFull sym close e r tf).action
      = actionOf (buyCount (votesOf close)) (sellCount (votesOf close)) := rfl

lemma full_votes (sym : String) (close : List ℚ) (e r : ℚ) (tf : String) :
    (analyzeFull sym close e r tf).strategy_votes = some (votesOf close) := rfl

lemma full_reason (sym : String) (close : List ℚ) (e r : ℚ) (tf : String) :
    (analyzeFull sym close e r tf).reason = none := rfl

lemma full_confidence (sym : String) (close : List ℚ) (e r : ℚ) (tf : String) :
    (analyzeFull sym close e r tf).confidence
      = some (confidenceOf (buyCount (votesOf close)) (sellCount (votesOf close))) := rfl

lemma full_entry (sym : String) (close : List ℚ) (e r : ℚ) (tf : String) :
    (analyzeFull sym close e r tf).entry_price
      = some (roundTo 6 (close.getLastD 0)) := rfl

lemma full_slp (sym : String) (close : List ℚ) (e r : ℚ) (tf : String) :
    (analyzeFull sym close e r tf).stop_loss_price
      = truthyRound6 (stopLossRaw
          (actionOf (buyCount (votesOf close)) (sellCount (votesOf close)))
          (close.getLastD 0)) := by
  unfold analyzeFull
  rfl

lemma full_tpp (sym : String) (close : List ℚ) (e r : ℚ) (tf : String) :
    (analyzeFull sym close e r tf).take_profit_price
      = truthyRound6 (takeProfitRaw
          (actionOf (buyCount (votesOf close)) (sellCount (votesOf close)))
          (close.getLastD 0)) := by
  unfold analyzeFull
  rfl

lemma full_quantity (sym : String) (close : List ℚ) (e r : ℚ) (tf : String) :
    (analyzeFull sym close e r tf).quantity
      = some (quantityOf
          (actionOf (buyCount (votesOf close)) (sellCount (votesOf close)))
          (close.getLastD 0) e r) := rfl

lemma full_pospct (sym : String) (close : List ℚ) (e r : ℚ) (tf : String) :
    (analyzeFull sym close e r tf).position_percent
      = some (roundTo 2 (positionPercentOf
          (quantityOf (actionOf (buyCount (votesOf close)) (sellCount (votesOf close)))
            (close.getLastD 0) e r)
          (close.getLastD 0) e)) := rfl

lemma votes_zeros50 :
    votesOf (closeOf zeros50) = ⟨.HOLD, .HOLD, .HOLD, .BUY, .HOLD⟩ := by
  with_unfolding_all exact of_decide_eq_true rfl

lemma votes_const100 :
    votesOf (closeOf const100) = ⟨.HOLD, .HOLD, .HOLD, .BUY, .HOLD⟩ := by
  with_unfolding_all exact of_decide_eq_true rfl

lemma votes_tiny50 :
    votesOf (closeOf tiny50) = ⟨.HOLD, .HOLD, .HOLD, .BUY, .HOLD⟩ := by
  with_unfolding_all exact of_decide_eq_true rfl

lemma len_zeros50 : (closeOf zeros50).length = 50 := by
  with_unfolding_all exact of_decide_eq_true rfl

lemma len_const100 : (closeOf const100).length = 50 := by
  with_unfolding_all exact of_decide_eq_true rfl

lemma len_tiny50 : (closeOf tiny50).length = 50 := by
  with_unfolding_all exact of_decide_eq_true rfl

lemma last_zeros50 : (closeOf zeros50).getLastD 0 = 0 := by
  with_unfolding_all exact of_decide_eq_true rfl

lemma last_const100 : (closeOf const100).getLastD 0 = 100 := by
  with_unfolding_all exact of_decide_eq_true rfl

lemma last_tiny50 : (closeOf tiny50).getLastD 0 = 1/1000000000 := by
  with_unfolding_all exact of_decide_eq_true rfl

lemma pyRound_hundred : pyRound 100 = 100 := by
  with_unfolding_all exact of_decide_eq_true rfl

lemma roundTo_zero (n : ℕ) : roundTo n 0 = 0 := by
  have h : pyRound 0 = 0 := by norm_num [pyRound]
  simp [roundTo, h]

/-! ## Claim theorems -/

/-- Claim C1: for every price series of at least 50 (non-NaN) closing
observations, `analyze_symbol` records the five voters' votes and, with
B/S the BUY/SELL counts out of T=5, sets action = BUY if B>S, SELL if S>B,
else HOLD; confidence = round(max(B,S)/T·100) when the action is not HOLD
and round((1−|B−S|/T)·100) when it is, so an exact tie B=S yields
confidence 100. -/
theorem c1_vote_aggregation (sym : String) (df : DataFrame)
    (equity riskPct : ℚ) (tf : String) (h : 50 ≤ (closeOf df).length) :
    (analyze_symbol sym (some df) equity riskPct tf).strategy_votes
        = some (votesOf (closeOf df))
    ∧ (analyze_symbol sym (some df) equity riskPct tf).action
        = (if buyCount (votesOf (closeOf df)) > sellCount (votesOf (closeOf df))
           then Action.BUY
           else if sellCount (votesOf (closeOf df)) > buyCount (votesOf (closeOf df))
           then Action.SELL
           else Action.HOLD)
    ∧ ((analyze_symbol sym (some df) equity riskPct tf).action ≠ Action.HOLD →
        (analyze_symbol sym (some df) equity riskPct tf).confidence
          = some (pyRound (((max (buyCount (votesOf (closeOf df)))
              (sellCount (votesOf (closeOf df))) : ℕ) : ℚ) / 5 * 100)))
    ∧ ((analyze_symbol sym (some df) equity riskPct tf).action = Action.HOLD →
        (analyze_symbol sym (some df) equity riskPct tf).confidence
          = some (pyRound ((1 - |(buyCount (votesOf (closeOf df)) : ℚ)
              - (sellCount (votesOf (closeOf df)) : ℚ)| / 5) * 100)))
    ∧ (buyCount (votesOf (closeOf df)) = sellCount (votesOf (closeOf df)) →
        (analyze_symbol sym (some df) equity riskPct tf).confidence = some 100) := by
  rw [analyze_long sym equity riskPct tf h]
  refine ⟨rfl, ?_, ?_, ?_, ?_⟩
  · rw [full_action]
    unfold actionOf
    rfl
  · intro hne
    rw [full_action] at hne
    rw [full_confidence, confidenceOf, if_pos hne]
  · intro hh
    rw [full_action] at hh
    rw [full_confidence, confidenceOf, if_neg (not_not_intro hh)]
  · intro hbs
    rw [full_confidence, confidenceOf, hbs]
    have hact : actionOf (sellCount (votesOf (closeOf df)))
        (sellCount (votesOf (closeOf df))) = Action.HOLD := by
      simp [actionOf]
    rw [if_neg (not_not_intro hact), sub_self, abs_zero, zero_div, sub_zero,
      one_mul, pyRound_hundred]

/-- Witness for C1 at a concrete 50-close series. -/
theorem c1_witness :
    50 ≤ (closeOf zeros50).length
    ∧ ((analyze_symbol "W1" (some zeros50) 10000 1 "1d").strategy_votes
        = some (votesOf (closeOf zeros50))
    ∧ (analyze_symbol "W1" (some zeros50) 10000 1 "1d").action
        = (if buyCount (votesOf (closeOf zeros50)) > sellCount (votesOf (closeOf zeros50))
           then Action.BUY
           else if sellCount (votesOf (closeOf zeros50)) > buyCount (votesOf (closeOf zeros50))
           then Action.SELL
           else Action.HOLD)
    ∧ ((analyze_symbol "W1" (some zeros50) 10000 1 "1d").action ≠ Action.HOLD →
        (analyze_symbol "W1" (some zeros50) 10000 1 "1d").confidence
          = some (pyRound (((max (buyCount (votesOf (closeOf zeros50)))
              (sellCount (votesOf (closeOf zeros50))) : ℕ) : ℚ) / 5 * 100)))
    ∧ ((analyze_symbol "W1" (some zeros50) 10000 1 "1d").action = Action.HOLD →
        (analyze_symbol "W1" (some zeros50) 10000 1 "1d").confidence
          = some (pyRound ((1 - |(buyCount (votesOf (closeOf zeros50)) : ℚ)
              - (sellCount (votesOf (closeOf zeros50)) : ℚ)| / 5) * 100)))
    ∧ (buyCount (votesOf (closeOf zeros50)) = sellCount (votesOf (closeOf zeros50)) →
        (analyze_symbol "W1" (some zeros50) 10000 1 "1d").confidence = some 100)) :=
  ⟨by rw [len_zeros50],
   c1_vote_aggregation "W1" zeros50 10000 1 "1d" (by rw [len_zeros50])⟩

/-- Claim C2, counterexample: on a one-row series the early
"insufficient_data" return carries no `quantity` key at all, so the
claimed `quantity = 0` is false. -/
theorem c2_counterexample :
    (analyze_symbol "X" (some oneRow) 10000 1 "1d").action = Action.HOLD
    ∧ (analyze_symbol "X" (some oneRow) 10000 1 "1d").reason
        = some "insufficient_data"
    ∧ ¬ (analyze_symbol "X" (some oneRow) 10000 1 "1d").quantity = some 0 := by
  with_unfolding_all exact of_decide_eq_true rfl

/-- Claim C2 as amended: a non-empty series with fewer than 50 non-NaN
closes yields action=HOLD, reason="insufficient_data", and an absent
`quantity` field (not the value 0). -/
theorem c2_amended (sym : String) (df : DataFrame) (e r : ℚ) (tf : String)
    (h1 : df.rows ≠ []) (h2 : (closeOf df).length < 50) :
    (analyze_symbol sym (some df) e r tf).action = Action.HOLD
    ∧ (analyze_symbol sym (some df) e r tf).reason = some "insufficient_data"
    ∧ (analyze_symbol sym (some df) e r tf).quantity = none := by
  rw [analyze_short sym e r tf h1 h2]
  exact ⟨rfl, rfl, rfl⟩

/-- Witness for the amended C2 at the one-row series. -/
theorem c2_witness :
    oneRow.rows ≠ [] ∧ (closeOf oneRow).length < 50
    ∧ ((analyze_symbol "W2" (some oneRow) 10000 1 "1d").action = Action.HOLD
       ∧ (analyze_symbol "W2" (some oneRow) 10000 1 "1d").reason
           = some "insufficient_data"
       ∧ (analyze_symbol "W2" (some oneRow) 10000 1 "1d").quantity = none) :=
  ⟨by decide, by decide,
   c2_amended "W2" oneRow 10000 1 "1d" (by decide) (by decide)⟩

/-- Claim C4: a `None` frame or an empty frame yields a HOLD signal with
reason "no_data"; no votes or confidence are computed (the fields are
absent) and no error is raised (the function is total and returns this
signal). -/
theorem c4_no_data (sym : String) (data : Option DataFrame) (e r : ℚ)
    (tf : String)
    (h : data = none ∨ ∃ df, data = some df ∧ df.rows = []) :
    (analyze_symbol sym data e r tf).action = Action.HOLD
    ∧ (analyze_symbol sym data e r tf).reason = some "no_data"
    ∧ (analyze_symbol sym data e r tf).strategy_votes = none
    ∧ (analyze_symbol sym data e r tf).confidence = none
    ∧ (analyze_symbol sym data e r tf).quantity = none := by
  rcases h with h | ⟨df, rfl, hdf⟩
  · subst h
    exact ⟨rfl, rfl, rfl, rfl, rfl⟩
  · rw [analyze_empty sym e r tf hdf]
    exact ⟨rfl, rfl, rfl, rfl, rfl⟩

/-- Witness for C4 at the `None` frame. -/
theorem c4_witness :
    ((none : Option DataFrame) = none
      ∨ ∃ df, (none : Option DataFrame) = some df ∧ df.rows = [])
    ∧ ((analyze_symbol "W4" none 10000 1 "1d").action = Action.HOLD
       ∧ (analyze_symbol "W4" none 10000 1 "1d").reason = some "no_data"
       ∧ (analyze_symbol "W4" none 10000 1 "1d").strategy_votes = none
       ∧ (analyze_symbol "W4" none 10000 1 "1d").confidence = none
       ∧ (analyze_symbol "W4" none 10000 1 "1d").quantity = none) :=
  ⟨Or.inl rfl, c4_no_data "W4" none 10000 1 "1d" (Or.inl rfl)⟩

/-- Claim C3, counterexample: on fifty zero closes the action is BUY (not
HOLD) yet both bracket prices are absent — the computed bracket price 0 is
dropped by the truthiness check — refuting "action ≠ HOLD ⇒ brackets
present". -/
theorem c3_counterexample :
    (analyze_symbol "C3" (some zeros50) 10000 1 "1d").action ≠ Action.HOLD
    ∧ (analyze_symbol "C3" (some zeros50) 10000 1 "1d").stop_loss_price = none
    ∧ (analyze_symbol "C3" (some zeros50) 10000 1 "1d").take_profit_price = none := by
  rw [analyze_long "C3" 10000 1 "1d" (by rw [len_zeros50]),
    full_action, full_slp, full_tpp, votes_zeros50, last_zeros50]
  refine ⟨?_, ?_, ?_⟩ <;> with_unfolding_all exact of_decide_eq_true rfl

/-- Claim C3 as amended: a non-HOLD signal has quantity ≥ 1, and its
bracket prices are present provided the (rounded) entry price is nonzero;
a HOLD signal has absent bracket prices, quantity 0 on the full voting
path (reason absent), and an absent quantity on the two early returns
(reason present). -/
theorem c3_amended (sym : String) (data : Option DataFrame) (e r : ℚ)
    (tf : String) :
    ((analyze_symbol sym data e r tf).action ≠ Action.HOLD →
       (∃ q, (analyze_symbol sym data e r tf).quantity = some q ∧ 1 ≤ q)
       ∧ (∀ p, (analyze_symbol sym data e r tf).entry_price = some p → p ≠ 0 →
            (analyze_symbol sym data e r tf).stop_loss_price ≠ none
            ∧ (analyze_symbol sym data e r tf).take_profit_price ≠ none))
    ∧ ((analyze_symbol sym data e r tf).action = Action.HOLD →
        (analyze_symbol sym data e r tf).stop_loss_price = none
        ∧ (analyze_symbol sym data e r tf).take_profit_price = none
        ∧ ((analyze_symbol sym data e r tf).reason = none →
            (analyze_symbol sym data e r tf).quantity = some 0)
        ∧ ((analyze_symbol sym data e r tf).reason ≠ none →
            (analyze_symbol sym data e r tf).quantity = none)) := by
  have early : ∀ reason : String,
      ((earlyHold sym reason).action ≠ Action.HOLD →
         (∃ q, (earlyHold sym reason).quantity = some q ∧ 1 ≤ q)
         ∧ (∀ p, (earlyHold sym reason).entry_price = some p → p ≠ 0 →
              (earlyHold sym reason).stop_loss_price ≠ none
              ∧ (earlyHold sym reason).take_profit_price ≠ none))
      ∧ ((earlyHold sym reason).action = Action.HOLD →
          (earlyHold sym reason).stop_loss_price = none
          ∧ (earlyHold sym reason).take_profit_price = none
          ∧ ((earlyHold sym reason).reason = none →
              (earlyHold sym reason).quantity = some 0)
          ∧ ((earlyHold sym reason).reason ≠ none →
              (earlyHold sym reason).quantity = none)) := by
    intro reason
    constructor
    · intro hne
      exact absurd rfl hne
    · intro _
      refine ⟨rfl, rfl, ?_, fun _ => rfl⟩
      intro hr
      simp [earlyHold] at hr
  rcases data with _ | df
  · exact early "no_data"
  · by_cases hrows : df.rows = []
    · rw [analyze_empty sym e r tf hrows]
      exact early "no_data"
    · by_cases hlen : (closeOf df).length < 50
      · rw [analyze_short sym e r tf hrows hlen]
        exact early "insufficient_data"
      · rw [analyze_long sym e r tf (Nat.not_lt.mp hlen)]
        constructor
        · intro hne
          rw [full_action] at hne
          constructor
          · refine ⟨_, full_quantity sym (closeOf df) e r tf, ?_⟩
            rw [quantityOf, if_pos hne]
            exact le_max_left _ _
          · intro p hp hp0
            rw [full_entry] at hp
            have hpe : p = roundTo 6 ((closeOf df).getLastD 0) :=
              (Option.some.injEq _ _ ▸ hp).symm
            have hent : (closeOf df).getLastD 0 ≠ 0 := by
              intro h0
              rw [h0, roundTo_zero] at hpe
              exact hp0 hpe
            rw [full_slp, full_tpp]
            rcases hact : actionOf (buyCount (votesOf (closeOf df)))
                (sellCount (votesOf (closeOf df))) with _ | _ | _
            · constructor
              · rw [stopLossRaw]
                simp only [reduceCtorEq, if_false, if_true]
                rw [truthyRound6]
                rw [if_neg (mul_ne_zero hent (by norm_num))]
                exact Option.some_ne_none _
              · rw [takeProfitRaw]
                simp only [reduceCtorEq, if_false, if_true]
                rw [truthyRound6]
                rw [if_neg (mul_ne_zero hent (by norm_num))]
                exact Option.some_ne_none _
            · constructor
              · rw [stopLossRaw]
                simp only [if_true]
                rw [truthyRound6]
                rw [if_neg (mul_ne_zero hent (by norm_num))]
                exact Option.some_ne_none _
              · rw [takeProfitRaw]
                simp only [if_true]
                rw [truthyRound6]
                rw [if_neg (mul_ne_zero hent (by norm_num))]
                exact Option.some_ne_none _
            · exact absurd hact hne
        · intro hh
          rw [full_action] at hh
          refine ⟨?_, ?_, fun _ => ?_, fun hr => absurd (full_reason sym (closeOf df) e r tf) hr⟩
          · rw [full_slp, hh, stopLossRaw]
            simp [truthyRound6]
          · rw [full_tpp, hh, takeProfitRaw]
            simp [truthyRound6]
          · rw [full_quantity, hh, quantityOf]
            simp

/-- Witness for the amended C3 at a concrete input (constant positive
series: BUY with positive entry). -/
theorem c3_witness :
    ((analyze_symbol "W3" (some const100) 10000 1 "1d").action ≠ Action.HOLD →
       (∃ q, (analyze_symbol "W3" (some const100) 10000 1 "1d").quantity = some q ∧ 1 ≤ q)
       ∧ (∀ p, (analyze_symbol "W3" (some const100) 10000 1 "1d").entry_price = some p → p ≠ 0 →
            (analyze_symbol "W3" (some const100) 10000 1 "1d").stop_loss_price ≠ none
            ∧ (analyze_symbol "W3" (some const100) 10000 1 "1d").take_profit_price ≠ none))
    ∧ ((analyze_symbol "W3" (some const100) 10000 1 "1d").action = Action.HOLD →
        (analyze_symbol "W3" (some const100) 10000 1 "1d").stop_loss_price = none
        ∧ (analyze_symbol "W3" (some const100) 10000 1 "1d").take_profit_price = none
        ∧ ((analyze_symbol "W3" (some const100) 10000 1 "1d").reason = none →
            (analyze_symbol "W3" (some const100) 10000 1 "1d").quantity = some 0)
        ∧ ((analyze_symbol "W3" (some const100) 10000 1 "1d").reason ≠ none →
            (analyze_symbol "W3" (some const100) 10000 1 "1d").quantity = none)) :=
  c3_amended "W3" (some const100) 10000 1 "1d"

/-- Claim C5, counterexample: on fifty closes of `1e-9` (positive entry,
positive equity, action BUY) the code sizes the position with
`max(1e-8, entry*0.02)` and returns quantity 10^10, while the claimed
formula `max(1, floor(risk_capital/(entry*0.02)))` gives 5·10^12. -/
theorem c5_counterexample :
    0 < (closeOf tiny50).getLastD 0
    ∧ (analyze_symbol "C5" (some tiny50) 10000 1 "1d").action ≠ Action.HOLD
    ∧ (analyze_symbol "C5" (some tiny50) 10000 1 "1d").quantity
        = some 10000000000
    ∧ (10000000000 : ℤ)
        ≠ max 1 ⌊(10000 * ((1 : ℚ) / 100))
            / (((closeOf tiny50).getLastD 0) * (2 / 100))⌋ := by
  rw [analyze_long "C5" 10000 1 "1d" (by rw [len_tiny50]),
    full_action, full_quantity, votes_tiny50, last_tiny50]
  refine ⟨by norm_num, ?_, ?_, ?_⟩
  · with_unfolding_all exact of_decide_eq_true rfl
  · exact congrArg some (by with_unfolding_all exact of_decide_eq_true rfl)
  · with_unfolding_all exact of_decide_eq_true rfl

/-- Claim C5 as amended: with at least 50 closes, positive entry and
positive equity, the brackets are `entry·(1∓0.02)` / `entry·(1±0.04)`
rounded to 6 decimals as claimed; the quantity of a non-HOLD signal is
`max(1, floor(risk_capital / max(1e-8, entry·0.02)))` — the claimed
formula only after clamping the per-unit risk below by `1e-8`; the
position percent is `quantity·entry/equity·100` rounded to 2 decimals. -/
theorem c5_amended (sym : String) (df : DataFrame) (e r : ℚ) (tf : String)
    (h : 50 ≤ (closeOf df).length)
    (hentry : 0 < (closeOf df).getLastD 0) (he : 0 < e) :
    ((analyze_symbol sym (some df) e r tf).action = Action.BUY →
       (analyze_symbol sym (some df) e r tf).stop_loss_price
           = some (roundTo 6 ((closeOf df).getLastD 0 * (1 - 2/100)))
       ∧ (analyze_symbol sym (some df) e r tf).take_profit_price
           = some (roundTo 6 ((closeOf df).getLastD 0 * (1 + 4/100))))
    ∧ ((analyze_symbol sym (some df) e r tf).action = Action.SELL →
       (analyze_symbol sym (some df) e r tf).stop_loss_price
           = some (roundTo 6 ((closeOf df).getLastD 0 * (1 + 2/100)))
       ∧ (analyze_symbol sym (some df) e r tf).take_profit_price
           = some (roundTo 6 ((closeOf df).getLastD 0 * (1 - 4/100))))
    ∧ ((analyze_symbol sym (some df) e r tf).action ≠ Action.HOLD →
       (analyze_symbol sym (some df) e r tf).quantity
           = some (max 1 ⌊(e * (r / 100))
               / max (1/10^8) ((closeOf df).getLastD 0 * (2/100))⌋))
    ∧ (analyze_symbol sym (some df) e r tf).position_percent
        = some (roundTo 2
            ((((analyze_symbol sym (some df) e r tf).quantity.getD 0 : ℤ) : ℚ)
              * (closeOf df).getLastD 0 / e * 100)) := by
  rw [analyze_long sym e r tf h]
  have hb1 : (closeOf df).getLastD 0 * (1 - 2/100) ≠ 0 :=
    ne_of_gt (mul_pos hentry (by norm_num))
  have hb2 : (closeOf df).getLastD 0 * (1 + 4/100) ≠ 0 :=
    ne_of_gt (mul_pos hentry (by norm_num))
  have hb3 : (closeOf df).getLastD 0 * (1 + 2/100) ≠ 0 :=
    ne_of_gt (mul_pos hentry (by norm_num))
  have hb4 : (closeOf df).getLastD 0 * (1 - 4/100) ≠ 0 :=
    ne_of_gt (mul_pos hentry (by norm_num))
  refine ⟨?_, ?_, ?_, ?_⟩
  · intro hB
    rw [full_action] at hB
    rw [full_slp, full_tpp, hB, stopLossRaw, takeProfitRaw]
    simp only [reduceCtorEq, if_false, if_true]
    rw [truthyRound6, truthyRound6, if_neg hb1, if_neg hb2]
    exact ⟨rfl, rfl⟩
  · intro hS
    rw [full_action] at hS
    rw [full_slp, full_tpp, hS, stopLossRaw, takeProfitRaw]
    simp only [if_true]
    rw [truthyRound6, truthyRound6, if_neg hb3, if_neg hb4]
    exact ⟨rfl, rfl⟩
  · intro hne
    rw [full_action] at hne
    rw [full_quantity, quantityOf, riskPerUnitOf, if_pos hne, if_pos hne]
  · rw [full_pospct, full_quantity, Option.getD_some, positionPercentOf,
      if_pos he]

/-- Witness for the amended C5 at the constant-100 series. -/
theorem c5_witness :
    50 ≤ (closeOf const100).length ∧ 0 < (closeOf const100).getLastD 0
    ∧ (0 : ℚ) < 10000
    ∧ (((analyze_symbol "W5" (some const100) 10000 1 "1d").action = Action.BUY →
       (analyze_symbol "W5" (some const100) 10000 1 "1d").stop_loss_price
           = some (roundTo 6 ((closeOf const100).getLastD 0 * (1 - 2/100)))
       ∧ (analyze_symbol "W5" (some const100) 10000 1 "1d").take_profit_price
           = some (roundTo 6 ((closeOf const100).getLastD 0 * (1 + 4/100))))
    ∧ ((analyze_symbol "W5" (some const100) 10000 1 "1d").action = Action.SELL →
       (analyze_symbol "W5" (some const100) 10000 1 "1d").stop_loss_price
           = some (roundTo 6 ((closeOf const100).getLastD 0 * (1 + 2/100)))
       ∧ (analyze_symbol "W5" (some const100) 10000 1 "1d").take_profit_price
           = some (roundTo 6 ((closeOf const100).getLastD 0 * (1 - 4/100))))
    ∧ ((analyze_symbol "W5" (some const100) 10000 1 "1d").action ≠ Action.HOLD →
       (analyze_symbol "W5" (some const100) 10000 1 "1d").quantity
           = some (max 1 ⌊((10000 : ℚ) * (1 / 100))
               / max (1/10^8) ((closeOf const100).getLastD 0 * (2/100))⌋))
    ∧ (analyze_symbol "W5" (some const100) 10000 1 "1d").position_percent
        = some (roundTo 2
            ((((analyze_symbol "W5" (some const100) 10000 1 "1d").quantity.getD 0 : ℤ) : ℚ)
              * (closeOf const100).getLastD 0 / 10000 * 100))) :=
  ⟨by rw [len_const100], by rw [last_const100]; norm_num, by norm_num,
   c5_amended "W5" const100 10000 1 "1d" (by rw [len_const100])
     (by rw [last_const100]; norm_num) (by norm_num)⟩

/-- Claim C10: on a valid series of fifty closes all equal to 0 the vote
majority is BUY (Bollinger votes BUY), yet both bracket prices are null —
the computed bracket price 0 is falsy — while a quantity is still sized
(via the `1e-8` clamp); bracket presence for non-HOLD actions therefore
needs a nonzero entry price. -/
theorem c10_zero_entry_null_brackets :
    (analyze_symbol "C10" (some zeros50) 10000 1 "1d").action = Action.BUY
    ∧ (analyze_symbol "C10" (some zeros50) 10000 1 "1d").action ≠ Action.HOLD
    ∧ (analyze_symbol "C10" (some zeros50) 10000 1 "1d").stop_loss_price = none
    ∧ (analyze_symbol "C10" (some zeros50) 10000 1 "1d").take_profit_price = none
    ∧ (analyze_symbol "C10" (some zeros50) 10000 1 "1d").quantity
        = some 10000000000 := by
  rw [analyze_long "C10" 10000 1 "1d" (by rw [len_zeros50]),
    full_action, full_slp, full_tpp, full_quantity, votes_zeros50,
    last_zeros50]
  refine ⟨?_, ?_, ?_, ?_, ?_⟩
  · with_unfolding_all exact of_decide_eq_true rfl
  · with_unfolding_all exact of_decide_eq_true rfl
  · with_unfolding_all exact of_decide_eq_true rfl
  · with_unfolding_all exact of_decide_eq_true rfl
  · exact congrArg some (by with_unfolding_all exact of_decide_eq_true rfl)

/-! ## Broadcaster lemmas -/

lemma putAttempt_id {α : Type} (q : SubQueue α) (m : α) :
    (putAttempt q m).id = q.id := by
  unfold putAttempt
  split <;> rfl

lemma removeFirst_absent {α : Type} (l : List (SubQueue α)) (i : ℕ)
    (h : ∀ q ∈ l, q.id ≠ i) : removeFirst l i = l := by
  induction l with
  | nil => rfl
  | cons q rest ih =>
    rw [removeFirst, if_neg (h q (List.mem_cons_self q rest))]
    rw [ih fun p hp => h p (List.mem_cons_of_mem q hp)]

lemma removeFirst_not_mem {α : Type} (l : List (SubQueue α)) (i : ℕ)
    (h : (l.map SubQueue.id).Nodup) :
    ∀ q ∈ removeFirst l i, q.id ≠ i := by
  induction l with
  | nil => intro q hq; simp [removeFirst] at hq
  | cons p rest ih =>
    rw [List.map_cons, List.nodup_cons] at h
    intro q hq
    rw [removeFirst] at hq
    by_cases hp : p.id = i
    · rw [if_pos hp] at hq
      intro hqi
      have hmem : q.id ∈ List.map SubQueue.id rest :=
        List.mem_map_of_mem SubQueue.id hq
      rw [hqi, ← hp] at hmem
      exact h.1 hmem
    · rw [if_neg hp] at hq
      rcases List.mem_cons.mp hq with rfl | hq2
      · exact hp
      · exact ih h.2 q hq2

/-- Claim C6, counterexample: a queue whose `put` raises is *not* evicted
by `publish`; the registry still contains it afterwards (the claim
predicts it is removed on that publish attempt). -/
theorem c6_counterexample :
    (publish (⟨[⟨0, [], true⟩]⟩ : Broadcaster ℕ) 5).connections = [⟨0, [], true⟩]
    ∧ (⟨0, [], true⟩ : SubQueue ℕ)
        ∈ (publish (⟨[⟨0, [], true⟩]⟩ : Broadcaster ℕ) 5).connections := by
  decide

/-- Claim C6 as amended: `publish` appends the message to every registered
non-broken queue (all queues created by `subscribe` are unbounded, so the
put returns immediately), swallows a raising put while leaving that queue
registered — no eviction happens here — and with an empty registry does
nothing and succeeds. -/
theorem c6_amended {α : Type} (bc : Broadcaster α) (m : α) :
    (publish bc m).connections.length = bc.connections.length
    ∧ (∀ q, q ∈ bc.connections →
        ∃ q2, q2 ∈ (publish bc m).connections ∧ q2.id = q.id
          ∧ q2.broken = q.broken
          ∧ q2.items = (if q.broken then q.items else q.items ++ [m]))
    ∧ (bc.connections = [] → publish bc m = bc) := by
  refine ⟨by simp [publish], ?_, ?_⟩
  · intro q hq
    refine ⟨putAttempt q m, List.mem_map_of_mem _ hq, putAttempt_id q m, ?_, ?_⟩
    · unfold putAttempt
      split <;> rfl
    · by_cases hb : q.broken
      · simp [putAttempt, hb]
      · simp [putAttempt, hb]
  · intro h
    cases bc with
    | mk c =>
      simp only at h
      subst h
      rfl

/-- Witness for the amended C6 at a concrete registry (and, for the empty
clause, the empty registry). -/
theorem c6_witness :
    (publish (⟨[⟨0, [], false⟩]⟩ : Broadcaster ℕ) 5).connections.length
        = ([⟨0, [], false⟩] : List (SubQueue ℕ)).length
    ∧ publish (⟨[]⟩ : Broadcaster ℕ) 5 = ⟨[]⟩ :=
  ⟨(c6_amended ⟨[⟨0, [], false⟩]⟩ 5).1, (c6_amended ⟨[]⟩ 5).2.2 rfl⟩

/-- Claim C7, counterexample: a consumer whose queue receives a published
message before any 25s timeout observes that message as its *first* event;
no heartbeat precedes it (the stream emits a ping only on a timeout). -/
theorem c7_counterexample :
    (publish ((subscribe (⟨[]⟩ : Broadcaster ℕ) 0).2) 7).connections
        = [⟨0, [7], false⟩]
    ∧ sseEvents (([7] : List ℕ).map some) = [SseEvent.message 7]
    ∧ (SseEvent.message 7 : SseEvent ℕ) ≠ SseEvent.ping := by
  decide

/-- Claim C7 as amended: a subscriber's (non-broken) queue receives two
sequentially published messages in publish order, the stream yields queued
messages in that order, and a heartbeat (`ping`) event occurs only at a
25-second timeout — never as an unconditional first event. -/
theorem c7_amended {α : Type} (bc : Broadcaster α) (m1 m2 : α)
    (q : SubQueue α) (hq : q ∈ bc.connections) (hb : q.broken = false) :
    (∃ q2, q2 ∈ (publish (publish bc m1) m2).connections
        ∧ q2.id = q.id ∧ q2.items = q.items ++ [m1, m2])
    ∧ (∀ l : List α, sseEvents (l.map some) = l.map SseEvent.message)
    ∧ (∀ arrivals : List (Option α),
        SseEvent.ping ∈ sseEvents arrivals → none ∈ arrivals) := by
  refine ⟨⟨putAttempt (putAttempt q m1) m2, ?_, ?_, ?_⟩, ?_, ?_⟩
  · exact List.mem_map_of_mem _ (List.mem_map_of_mem _ hq)
  · rw [putAttempt_id, putAttempt_id]
  · simp [putAttempt, hb]
  · intro l
    induction l with
    | nil => rfl
    | cons a t ih =>
      simp only [List.map_cons, sseEvents] at ih ⊢
      rw [ih]
  · intro arrivals hm
    induction arrivals with
    | nil => simp [sseEvents] at hm
    | cons a t ih =>
      simp only [sseEvents, List.map_cons] at hm
      rcases List.mem_cons.mp hm with h1 | h2
      · cases a with
        | none => exact List.mem_cons_self _ _
        | some v => exact absurd h1.symm (by simp)
      · exact List.mem_cons_of_mem _ (ih h2)

/-- Witness for the amended C7 at a concrete one-subscriber registry. -/
theorem c7_witness :
    (∃ q2, q2 ∈ (publish (publish (⟨[⟨0, [], false⟩]⟩ : Broadcaster ℕ) 1) 2).connections
        ∧ q2.id = (⟨0, [], false⟩ : SubQueue ℕ).id
        ∧ q2.items = (⟨0, [], false⟩ : SubQueue ℕ).items ++ [1, 2])
    ∧ (∀ l : List ℕ, sseEvents (l.map some) = l.map SseEvent.message)
    ∧ (∀ arrivals : List (Option ℕ),
        SseEvent.ping ∈ sseEvents arrivals → none ∈ arrivals) :=
  c7_amended ⟨[⟨0, [], false⟩]⟩ 1 2 ⟨0, [], false⟩ (List.mem_singleton.mpr rfl) rfl

/-- Claim C8: `unsubscribe` removes the queue with the given identity from
the registry (fresh ids from `subscribe` make ids unique, hence the Nodup
hypothesis); a second `unsubscribe` of the same handle is a no-op, as is
unsubscribing an absent handle (no error is raised — the function is
total); and after `unsubscribe`, no `publish` delivers to a queue with
that identity. -/
theorem c8_unsubscribe {α : Type} (bc : Broadcaster α) (qid : ℕ)
    (h : (bc.connections.map SubQueue.id).Nodup) :
    (∀ q, q ∈ (unsubscribe bc qid).connections → q.id ≠ qid)
    ∧ unsubscribe (unsubscribe bc qid) qid = unsubscribe bc qid
    ∧ ((∀ q, q ∈ bc.connections → q.id ≠ qid) → unsubscribe bc qid = bc)
    ∧ (∀ (m : α) q, q ∈ (publish (unsubscribe bc qid) m).connections →
        q.id ≠ qid) := by
  have h1 : ∀ q, q ∈ (unsubscribe bc qid).connections → q.id ≠ qid :=
    removeFirst_not_mem bc.connections qid h
  refine ⟨h1, ?_, ?_, ?_⟩
  · show Broadcaster.mk (removeFirst (removeFirst bc.connections qid) qid)
        = Broadcaster.mk (removeFirst bc.connections qid)
    have h1b : ∀ q ∈ removeFirst bc.connections qid, q.id ≠ qid := h1
    rw [removeFirst_absent _ _ h1b]
  · intro habs
    show Broadcaster.mk (removeFirst bc.connections qid) = bc
    rw [removeFirst_absent _ _ habs]
  · intro m q hq
    simp only [publish, List.mem_map] at hq
    rcases hq with ⟨q0, hq0, rfl⟩
    rw [putAttempt_id]
    exact h1 q0 hq0

/-- Witness for C8 at a concrete two-subscriber registry. -/
theorem c8_witness :
    (∀ q, q ∈ (unsubscribe (⟨[⟨0, [], false⟩, ⟨1, [3], false⟩]⟩ : Broadcaster ℕ) 0).connections
        → q.id ≠ 0)
    ∧ unsubscribe (unsubscribe (⟨[⟨0, [], false⟩, ⟨1, [3], false⟩]⟩ : Broadcaster ℕ) 0) 0
        = unsubscribe (⟨[⟨0, [], false⟩, ⟨1, [3], false⟩]⟩ : Broadcaster ℕ) 0
    ∧ ((∀ q, q ∈ (⟨[⟨0, [], false⟩, ⟨1, [3], false⟩]⟩ : Broadcaster ℕ).connections → q.id ≠ 0)
        → unsubscribe (⟨[⟨0, [], false⟩, ⟨1, [3], false⟩]⟩ : Broadcaster ℕ) 0
            = ⟨[⟨0, [], false⟩, ⟨1, [3], false⟩]⟩)
    ∧ (∀ (m : ℕ) q,
        q ∈ (publish (unsubscribe (⟨[⟨0, [], false⟩, ⟨1, [3], false⟩]⟩ : Broadcaster ℕ) 0) m).connections
        → q.id ≠ 0) :=
  c8_unsubscribe ⟨[⟨0, [], false⟩, ⟨1, [3], false⟩]⟩ 0 (by decide)

/-- Claim C9, counterexample: in `generate_signals_for_symbols` (the
scheduler's batch producer in `server.py`/`strategies.py`) a raising fetch
for one symbol aborts the whole batch — the other symbol, which on its own
yields a successful (empty) result, is never evaluated — and an
empty-series failure contributes no HOLD signal with a reason, just
nothing. -/
theorem c9_counterexample :
    generate_signals_for_symbols ["A", "B"] fetchA = Except.error ()
    ∧ generate_signals_for_symbols ["B"] fetchA = Except.ok [] := by
  constructor
  · with_unfolding_all exact rfl
  · with_unfolding_all exact rfl

/-- Claim C9 as amended: in `run_analysis` (the engine path) the claim
holds — every symbol of the batch is evaluated independently, a failed
fetch (raising or empty) yields a HOLD signal with reason "no_data" for
that symbol only, and a symbol's entry depends only on its own fetch
outcome; in the `generate_signals_for_symbols` path, by contrast, a
raising fetch aborts the batch and an empty fetch contributes no signal
(see the counterexample). -/
theorem c9_amended (symbols : List String) (f : String → FetchOutcome)
    (e r : ℚ) (tf : String) :
    (run_analysis symbols f e r tf).length = symbols.length
    ∧ (∀ (i : ℕ) (hi : i < symbols.length)
        (hj : i < (run_analysis symbols f e r tf).length),
        (run_analysis symbols f e r tf).get ⟨i, hj⟩
          = analyze_symbol (symbols.get ⟨i, hi⟩)
              (some (fetch_history f (symbols.get ⟨i, hi⟩))) e r tf)
    ∧ (∀ (i : ℕ) (hi : i < symbols.length)
        (hj : i < (run_analysis symbols f e r tf).length),
        (f (symbols.get ⟨i, hi⟩) = FetchOutcome.raises
          ∨ fetch_history f (symbols.get ⟨i, hi⟩) = ⟨[]⟩) →
        ((run_analysis symbols f e r tf).get ⟨i, hj⟩).action = Action.HOLD
        ∧ ((run_analysis symbols f e r tf).get ⟨i, hj⟩).reason
            = some "no_data")
    ∧ (∀ g : String → FetchOutcome, (∀ s ∈ symbols, f s = g s) →
        run_analysis symbols f e r tf = run_analysis symbols g e r tf) := by
  have hget : ∀ (i : ℕ) (hi : i < symbols.length)
      (hj : i < (run_analysis symbols f e r tf).length),
      (run_analysis symbols f e r tf).get ⟨i, hj⟩
        = analyze_symbol (symbols.get ⟨i, hi⟩)
            (some (fetch_history f (symbols.get ⟨i, hi⟩))) e r tf := by
    intro i hi hj
    simp only [run_analysis, merge_signals] at hj ⊢
    rw [List.get_eq_getElem, List.getElem_map, List.get_eq_getElem]
  refine ⟨by simp [run_analysis, merge_signals], hget, ?_, ?_⟩
  · intro i hi hj hfail
    have hempty : fetch_history f (symbols.get ⟨i, hi⟩) = ⟨[]⟩ := by
      rcases hfail with hr | hv
      · unfold fetch_history
        rw [hr]
      · exact hv
    rw [hget i hi hj, hempty, analyze_empty _ e r tf rfl]
    exact ⟨rfl, rfl⟩
  · intro g hg
    simp only [run_analysis, merge_signals]
    exact List.map_congr_left fun s hs => by
      have hfg : fetch_history f s = fetch_history g s := by
        unfold fetch_history
        rw [hg s hs]
      rw [hfg]

/-- Witness for the amended C9 at a concrete two-symbol batch with one
raising fetch. -/
theorem c9_witness :
    (run_analysis ["A-USD", "B-USD"] fetchA 10000 1 "1d").length
        = (["A-USD", "B-USD"] : List String).length
    ∧ (∀ (i : ℕ) (hi : i < (["A-USD", "B-USD"] : List String).length)
        (hj : i < (run_analysis ["A-USD", "B-USD"] fetchA 10000 1 "1d").length),
        (run_analysis ["A-USD", "B-USD"] fetchA 10000 1 "1d").get ⟨i, hj⟩
          = analyze_symbol ((["A-USD", "B-USD"] : List String).get ⟨i, hi⟩)
              (some (fetch_history fetchA ((["A-USD", "B-USD"] : List String).get ⟨i, hi⟩)))
              10000 1 "1d")
    ∧ (∀ (i : ℕ) (hi : i < (["A-USD", "B-USD"] : List String).length)
        (hj : i < (run_analysis ["A-USD", "B-USD"] fetchA 10000 1 "1d").length),
        (fetchA ((["A-USD", "B-USD"] : List String).get ⟨i, hi⟩) = FetchOutcome.raises
          ∨ fetch_history fetchA ((["A-USD", "B-USD"] : List String).get ⟨i, hi⟩) = ⟨[]⟩) →
        ((run_analysis ["A-USD", "B-USD"] fetchA 10000 1 "1d").get ⟨i, hj⟩).action = Action.HOLD
        ∧ ((run_analysis ["A-USD", "B-USD"] fetchA 10000 1 "1d").get ⟨i, hj⟩).reason
            = some "no_data")
    ∧ (∀ g : String → FetchOutcome,
        (∀ s ∈ (["A-USD", "B-USD"] : List String), fetchA s = g s) →
        run_analysis ["A-USD", "B-USD"] fetchA 10000 1 "1d"
          = run_analysis ["A-USD", "B-USD"] g 10000 1 "1d") :=
  c9_amended ["A-USD", "B-USD"] fetchA 10000 1 "1d"

end Tardes
